import Mathlib

/-!
# Verification of `isaac-floor-recorder` (`src/main.ts`)

A shallow embedding of the mod's traversal / persistence logic.

* Lua tables keyed by strings are modelled as association lists
  (`luaSet` replaces the value of an existing key, otherwise appends).
* The game engine's enum values (`LevelStage`, `StageType`, `Difficulty`,
  `Challenge`, `PlayerType`, `SeedEffect`) are fixed numeric constants of the
  external API; the ones the code uses are declared below with their numeric
  values.
* The module-level mutable variables of `main.ts` become the `ModState`
  structure; engine commands issued by a handler (`goToStage`,
  `Isaac.ExecuteCommand`, `Isaac.DebugString`, `mod.SaveData`,
  `seeds.AddSeedEffect`) become an output list of `Cmd` values; the Lua
  `error(...)` call becomes the `Except.error` case.
-/

set_option maxRecDepth 100000

namespace FloorRecorder

/-! ## Engine enum constants (external API values used by the code) -/

def STAGETYPE_ORIGINAL : Nat := 0
def STAGETYPE_WOTL : Nat := 1
def STAGETYPE_AFTERBIRTH : Nat := 2
def STAGETYPE_GREEDMODE : Nat := 3
def STAGETYPE_REPENTANCE : Nat := 4
def STAGETYPE_REPENTANCE_B : Nat := 5

def STAGE1_1 : Nat := 1

/-- Ordinal of `LevelStage.STAGE8` (Home) in the engine's enum. -/
def STAGE8 : Nat := 13

def DIFFICULTY_NORMAL : Nat := 0
def CHALLENGE_NULL : Nat := 0
def PLAYER_ISAAC : Nat := 0

/-! ## Compile-time constants of `main.ts` -/

def MOD_NAME : String := "isaac-floor-recorder"
def FINAL_STAGE : Nat := STAGE8
def VERBOSE : Bool := true
def NUMBER_OF_SEEDS_BEFORE_WRITING_TO_DISK : Nat := 100

/-- The excluded stages: `STAGES_TO_SKIP = new Set([9, 13])` (Blue Womb,
Home). -/
def STAGES_TO_SKIP : List Nat := [9, 13]

/-! ## Lua tables as association lists -/

/-- Model of `t.set(k, v)` on a `LuaTable`: replace the value of an existing
key, otherwise add the pair at the end. -/
def luaSet {α : Type} : List (String × α) → String → α → List (String × α)
  | [], k, v => [(k, v)]
  | p :: m, k, v => if p.1 == k then (k, v) :: m else p :: luaSet m k v

/-- Model of `t.get(k)` on a `LuaTable`. -/
def luaGet {α : Type} (m : List (String × α)) (k : String) : Option α :=
  (m.find? (fun p => p.1 == k)).map Prod.snd

/-- The list of keys of a table. -/
def luaKeys {α : Type} (m : List (String × α)) : List String :=
  m.map Prod.fst

/-! ## The traversal cursor

The variables `recordingStage` / `recordingStageType` form the sequencer's
cursor.  The cursor arithmetic of `incrementStage` / `incrementStageType` is
isolated here as pure functions; the full handlers below thread it through
`ModState`.
-/

structure Cursor where
  stage : Nat
  stageType : Nat
deriving DecidableEq, Repr

def initialCursor : Cursor := ⟨STAGE1_1, STAGETYPE_ORIGINAL⟩

/-- Source function `getMaxStageType` from `main.ts`, verbatim. -/
def getMaxStageType (stage : Nat) : Nat :=
  -- There is alternate stage type for Corpse
  if stage = 7 ∨ stage = 8 then STAGETYPE_REPENTANCE
  -- There are zero variants of Blue Womb
  else if stage = 9 then STAGETYPE_ORIGINAL
  -- There is one variant of Sheol / The Dark Room
  else if stage = 10 ∨ stage = 11 then STAGETYPE_WOTL
  -- There are zero variants of The Void
  else if stage = 12 then STAGETYPE_ORIGINAL
  -- There is one variant of Home
  else if stage = 13 then STAGETYPE_WOTL
  else STAGETYPE_REPENTANCE_B

/-- The cursor arithmetic of `incrementStage`: increment the stage, skip the
`STAGES_TO_SKIP` entries, and report (new stage, wrapped?).  On a wrap the
stage is reset to `STAGE1_1` (the source additionally folds the seed and
schedules a restart; that part lives in the stateful `incrementStage`). -/
def incrementStageCursor (stage : Nat) : Nat × Bool :=
  let stage := stage + 1
  let stage := if STAGES_TO_SKIP.contains stage then stage + 1 else stage
  if stage > FINAL_STAGE then (STAGE1_1, true) else (stage, false)

/-- The cursor arithmetic of `incrementStageType`: increment the stage type,
skip `STAGETYPE_GREEDMODE`, and on exceeding `getMaxStageType` reset to
`STAGETYPE_ORIGINAL` and advance the stage.  Returns (new cursor,
seed-traversal completed?). -/
def incrementStageTypeCursor (c : Cursor) : Cursor × Bool :=
  let t := c.stageType + 1
  -- STAGETYPE_GREEDMODE is unused
  let t := if t = STAGETYPE_GREEDMODE then t + 1 else t
  if t > getMaxStageType c.stage then
    let r := incrementStageCursor c.stage
    (⟨r.1, STAGETYPE_ORIGINAL⟩, r.2)
  else
    (⟨c.stage, t⟩, false)

/-- The cursor after `n` advance operations from the initial cursor. -/
def cursorAfter : Nat → Cursor
  | 0 => initialCursor
  | n + 1 => (incrementStageTypeCursor (cursorAfter n)).1

/-- The list of cursor values visited during one seed's traversal: the
current cursor, then (unless the advance reports completion) the rest of the
traversal.  `fuel` bounds the recursion; `64` is more than enough. -/
def traverseFrom : Nat → Cursor → List Cursor
  | 0, _ => []
  | fuel + 1, c =>
    c ::
      (let r := incrementStageTypeCursor c
       if r.2 then [] else traverseFrom fuel r.1)

/-- One full seed traversal, starting at the initial cursor. -/
def seedTraversal : List Cursor := traverseFrom 64 initialCursor

/-- The floor-identity key "`stage`.`stageType`" used to index `floorsMap`. -/
def floorsMapIndex (stage stageType : Nat) : String :=
  toString stage ++ "." ++ toString stageType

/-! ## Room data -/

/-- The engine-side static layout data of a room (`roomDesc.Data`),
restricted to the four fields the code reads.  `Data` is `undefined` for
rooms not yet generated, hence the descriptor carries an `Option` of this. -/
structure RoomConfigData where
  Shape : Nat
  StageID : Nat
  Variant : Nat
  Subtype : Nat
deriving DecidableEq, Repr

/-- An engine room descriptor, restricted to the two fields the code reads. -/
structure RoomDescriptor where
  SafeGridIndex : Int
  Data : Option RoomConfigData
deriving DecidableEq, Repr

/-- The recorded snapshot of one room (`src/types/RoomData`). -/
structure RoomData where
  shape : Nat
  stageID : Nat
  variant : Nat
  subType : Nat
deriving DecidableEq, Repr

/-- Indexed by grid index (stringified to prevent errors with JSON encoding). -/
abbrev RoomsMap := List (String × RoomData)

/-- Indexed by the string "`stage`.`stageType`". -/
abbrev FloorsMap := List (String × RoomsMap)

/-- Indexed by seed. -/
abbrev SeedsMap := List (String × FloorsMap)

/-! ## Mod state and commands -/

/-- The module-level mutable variables of `main.ts`. -/
structure ModState where
  /-- The variable `let mod: Mod | null = null` (only its null-ness
  matters). -/
  mod : Option Unit
  currentStartSeedString : Option String
  restart : Bool
  recordingStage : Nat
  recordingStageType : Nat
  floorsMap : FloorsMap
  seedsMap : SeedsMap
  seedsMapSize : Nat
deriving DecidableEq, Repr

/-- A command issued to the host engine by a handler. -/
inductive Cmd where
  /-- Call `Isaac.DebugString(s)`. -/
  | debugString (s : String)
  /-- Call `goToStage(stage, stageType)`. -/
  | goToStage (stage stageType : Nat)
  /-- Call `Isaac.ExecuteCommand(s)`. -/
  | executeCommand (s : String)
  /-- Call `mod.SaveData(jsonEncode(seedsMap))`; the payload is the table
  that is JSON-encoded. -/
  | saveData (data : SeedsMap)
  /-- Call `seeds.AddSeedEffect(SeedEffect.SEED_PREVENT_ALL_CURSES)`. -/
  | addSeedEffect
deriving DecidableEq, Repr

/-- The state as of module load. -/
def initialModState : ModState where
  mod := none
  currentStartSeedString := none
  restart := false
  recordingStage := STAGE1_1
  recordingStageType := STAGETYPE_ORIGINAL
  floorsMap := []
  seedsMap := []
  seedsMapSize := 0

/-! ## Handlers -/

/-- Source function `restartOnNextFrame()`: only sets the `restart` flag;
issues no command. -/
def restartOnNextFrame (st : ModState) : ModState :=
  { st with restart := true }

/-- Source function `postRender()` (`MC_POST_RENDER`): consume a pending
restart flag and issue the restart console command; otherwise do nothing. -/
def postRender (st : ModState) : ModState × List Cmd :=
  if st.restart then
    ({ st with restart := false }, [Cmd.executeCommand ("restart")])
  else
    (st, [])

/-- One iteration of the `recordFloor` loop: skip the descriptor when its
`Data` is `undefined`, otherwise store the snapshot of its four layout fields
under its stringified `SafeGridIndex`. -/
def recordRoomStep (roomsMap : RoomsMap) (roomDesc : RoomDescriptor) :
    RoomsMap :=
  match roomDesc.Data with
  | none => roomsMap
  | some data =>
    luaSet roomsMap (toString roomDesc.SafeGridIndex)
      { shape := data.Shape
        stageID := data.StageID
        variant := data.Variant
        subType := data.Subtype }

/-- The loop of `recordFloor`: build the `roomsMap` of the current floor from
the engine's room descriptors (`getRooms()`). -/
def buildRoomsMap (rooms : List RoomDescriptor) : RoomsMap :=
  rooms.foldl recordRoomStep []

/-- Source function `recordFloor()`: store the current floor's `roomsMap` in
`floorsMap` under the key `` `${recordingStage}.${recordingStageType}` ``. -/
def recordFloor (st : ModState) (rooms : List RoomDescriptor) : ModState :=
  let roomsMap := buildRoomsMap rooms
  { st with
    floorsMap :=
      luaSet st.floorsMap
        (floorsMapIndex st.recordingStage st.recordingStageType) roomsMap }

/-- Source function `writeAllRecordedDataToSaveDatFile()`: `error` when
`mod === null`, otherwise `mod.SaveData(jsonEncode(seedsMap))` plus the
verbose diagnostic. -/
def writeAllRecordedDataToSaveDatFile (st : ModState) :
    Except String (List Cmd) :=
  match st.mod with
  | none => Except.error ("Mod was not initialized.")
  | some _ =>
    Except.ok
      ([Cmd.saveData st.seedsMap] ++
        (if VERBOSE then
          [Cmd.debugString ("Recorded data to the \"save#.dat\" file.")]
        else []))

/-- Source function `recordAllFloorsToSeedMap()`: fold the current seed's
`floorsMap` into `seedsMap`, bump `seedsMapSize`, and every
`NUMBER_OF_SEEDS_BEFORE_WRITING_TO_DISK` seeds perform the durable write.
`startSeedString` is the value of `getStartSeedString()`. -/
def recordAllFloorsToSeedMap (st : ModState) (startSeedString : String) :
    Except String (ModState × List Cmd) :=
  let st' :=
    { st with
      seedsMap := luaSet st.seedsMap startSeedString st.floorsMap
      seedsMapSize := st.seedsMapSize + 1 }
  let verboseCmds :=
    if VERBOSE then
      [Cmd.debugString ("Recorded seed: " ++ startSeedString),
       Cmd.debugString ("Total seeds: " ++ toString st'.seedsMapSize)]
    else []
  -- Writing data to the disk is expensive, so only do it every N seeds
  if st'.seedsMapSize % NUMBER_OF_SEEDS_BEFORE_WRITING_TO_DISK = 0 then
    match writeAllRecordedDataToSaveDatFile st' with
    | Except.error e => Except.error e
    | Except.ok wcmds => Except.ok (st', verboseCmds ++ wcmds)
  else
    Except.ok (st', verboseCmds)

/-- Source function `incrementStage()`: advance the stage via
`incrementStageCursor`; on a wrap past `FINAL_STAGE`, fold the seed and
schedule a restart, returning `true` ("we are restarting to the next
seed"). -/
def incrementStage (st : ModState) (startSeedString : String) :
    Except String (ModState × List Cmd × Bool) :=
  let r := incrementStageCursor st.recordingStage
  let st := { st with recordingStage := r.1 }
  if r.2 then
    match recordAllFloorsToSeedMap st startSeedString with
    | Except.error e => Except.error e
    | Except.ok (st, cmds) => Except.ok (restartOnNextFrame st, cmds, true)
  else
    Except.ok (st, [], false)

/-- Source function `incrementStageType()`: advance the stage type via the
cursor arithmetic of `incrementStageTypeCursor`; on exhausting the current
stage's variants, delegate to `incrementStage`. -/
def incrementStageType (st : ModState) (startSeedString : String) :
    Except String (ModState × List Cmd × Bool) :=
  let t := st.recordingStageType + 1
  -- STAGETYPE_GREEDMODE is unused
  let t := if t = STAGETYPE_GREEDMODE then t + 1 else t
  if t > getMaxStageType st.recordingStage then
    incrementStage { st with recordingStageType := STAGETYPE_ORIGINAL }
      startSeedString
  else
    Except.ok ({ st with recordingStageType := t }, [], false)

/-- Source function `moveToNextFloor()`: advance the cursor; unless the seed
just completed, emit the verbose diagnostic and command the host to load the
new cursor's floor. -/
def moveToNextFloor (st : ModState) (startSeedString : String) :
    Except String (ModState × List Cmd) :=
  match incrementStageType st startSeedString with
  | Except.error e => Except.error e
  | Except.ok (st, cmds, true) => Except.ok (st, cmds)
  | Except.ok (st, cmds, false) =>
    Except.ok
      (st,
        cmds ++
          (if VERBOSE then
            [Cmd.debugString
              ("Going to stage: " ++
                floorsMapIndex st.recordingStage st.recordingStageType)]
          else []) ++
          [Cmd.goToStage st.recordingStage st.recordingStageType])

/-- Source function `postNewLevel()` (`MC_POST_NEW_LEVEL`).
`startSeedString` is `getStartSeedString()`; `engineStage` /
`engineStageType` are `getStage()` / `getStageType()` (used only in the
verbose diagnostic); `rooms` is `getRooms()`. -/
def postNewLevel (st : ModState) (startSeedString : String)
    (engineStage engineStageType : Nat) (rooms : List RoomDescriptor) :
    Except String (ModState × List Cmd) :=
  let verboseCmds :=
    if VERBOSE then
      [Cmd.debugString
        ("MC_POST_NEW_LEVEL - " ++ floorsMapIndex engineStage engineStageType)]
    else []
  -- Don't do anything upon getting to the first level,
  -- since we are on a randomly selected stage type
  if some startSeedString ≠ st.currentStartSeedString then
    Except.ok
      ({ st with currentStartSeedString := some startSeedString }, verboseCmds)
  else
    let st := recordFloor st rooms
    match moveToNextFloor st startSeedString with
    | Except.error e => Except.error e
    | Except.ok (st, cmds) => Except.ok (st, verboseCmds ++ cmds)

/-- The host queries read during `postGameStarted` / `validateRun`. -/
structure RunInputs where
  /-- The `continued` callback argument. -/
  continued : Bool
  /-- Value of `getStartSeedString()`. -/
  startSeedString : String
  /-- Value of `onSetSeed()`. -/
  onSetSeed : Bool
  /-- Value of `game.Difficulty`. -/
  difficulty : Nat
  /-- Value of `Isaac.GetChallenge()`. -/
  challenge : Nat
  /-- Value of `player.GetPlayerType()`. -/
  character : Nat
  /-- Value of `seeds.HasSeedEffect(SeedEffect.SEED_PREVENT_ALL_CURSES)`. -/
  hasPreventAllCurses : Bool
deriving DecidableEq, Repr

/-- Source function `validateRun(continued)`: the five structural checks each
`error` out; the curse-suppression check applies the seed effect, schedules a
restart and returns `false`; otherwise the run is eligible and the result is
`true`. -/
def validateRun (st : ModState) (inp : RunInputs) :
    Except String (ModState × List Cmd × Bool) :=
  if inp.continued then
    Except.error
      ("The " ++ MOD_NAME ++ " mod will not work when continuing a run.")
  else if inp.onSetSeed then
    Except.error ("The " ++ MOD_NAME ++ " mod will not work on set seeds.")
  else if inp.difficulty ≠ DIFFICULTY_NORMAL then
    Except.error
      ("The " ++ MOD_NAME ++ " mod will not work on non-normal difficulties.")
  else if inp.challenge ≠ CHALLENGE_NULL then
    Except.error ("The " ++ MOD_NAME ++ " mod will not work on challenges.")
  else if inp.character ≠ PLAYER_ISAAC then
    Except.error
      ("The " ++ MOD_NAME ++
        " mod will not work on characters other than Isaac.")
  else if ¬inp.hasPreventAllCurses then
    Except.ok
      (restartOnNextFrame st,
        [Cmd.addSeedEffect,
         Cmd.debugString ("Disabling curses and restarting the run.")],
        false)
  else
    Except.ok (st, [], true)

/-- Source function `postGameStarted(continued)` (`MC_POST_GAME_STARTED`):
validate the run; when eligible, reset `floorsMap` and command the host to
load the cursor's floor. -/
def postGameStarted (st : ModState) (inp : RunInputs) :
    Except String (ModState × List Cmd) :=
  let verboseCmds :=
    if VERBOSE then
      [Cmd.debugString ("MC_POST_GAME_STARTED - " ++ inp.startSeedString)]
    else []
  match validateRun st inp with
  | Except.error e => Except.error e
  | Except.ok (st, cmds, false) => Except.ok (st, verboseCmds ++ cmds)
  | Except.ok (st, cmds, true) =>
    let st := { st with floorsMap := [] }
    Except.ok
      (st,
        verboseCmds ++ cmds ++
          [Cmd.goToStage st.recordingStage st.recordingStageType])

/-- Iterate `postNewLevel` `fuel` times with a fixed seed string and a fixed
room-descriptor list (used for the end-to-end seed-traversal scenario). -/
def iterNewLevel (fuel : Nat) (seed : String) (rooms : List RoomDescriptor)
    (st : ModState) : Except String ModState :=
  match fuel with
  | 0 => Except.ok st
  | n + 1 =>
    match postNewLevel st seed st.recordingStage st.recordingStageType rooms with
    | Except.error e => Except.error e
    | Except.ok (st', _) => iterNewLevel n seed rooms st'

/-! ## Derived definitions used by the specification statements -/

/-- A boolean non-decreasing check on a list of naturals. -/
def sortedLE : List Nat → Bool
  | [] => true
  | [_] => true
  | a :: b :: l => decide (a ≤ b) && sortedLE (b :: l)

/-- The stages the traversal is supposed to visit: every stage from
`STAGE1_1` up to `FINAL_STAGE` that is not in `STAGES_TO_SKIP`. -/
def nonExcludedStages : List Nat :=
  (List.range' STAGE1_1 FINAL_STAGE).filter (fun s => ¬s ∈ STAGES_TO_SKIP)

/-- Validity of a cursor value: stage within the first-to-final range and not
in the excluded-stage set, stage type between the base variant and the
per-stage maximum, and never the unused Greed-mode variant. -/
def ValidCursor (c : Cursor) : Prop :=
  STAGE1_1 ≤ c.stage ∧ c.stage ≤ FINAL_STAGE ∧ ¬c.stage ∈ STAGES_TO_SKIP ∧
    STAGETYPE_ORIGINAL ≤ c.stageType ∧
    c.stageType ≤ getMaxStageType c.stage ∧
    c.stageType ≠ STAGETYPE_GREEDMODE

instance (c : Cursor) : Decidable (ValidCursor c) := by
  unfold ValidCursor
  infer_instance

/-- Whether a command list contains a durable write (`mod.SaveData`). -/
def hasSaveCmd (cmds : List Cmd) : Bool :=
  cmds.any (fun c =>
    match c with
    | Cmd.saveData _ => true
    | _ => false)

/-- Whether a command list contains a floor load (`goToStage`). -/
def hasGoToStageCmd (cmds : List Cmd) : Bool :=
  cmds.any (fun c =>
    match c with
    | Cmd.goToStage _ _ => true
    | _ => false)

/-- The stringified position key of a room descriptor. -/
def roomKey (r : RoomDescriptor) : String :=
  toString r.SafeGridIndex

/-- The position keys of the descriptors whose layout data is available. -/
def dataKeys (rooms : List RoomDescriptor) : List String :=
  (rooms.filter (fun r => r.Data.isSome)).map roomKey

/-- The association list a floor extraction should produce: one entry per
descriptor with available layout data, keyed by its stringified position,
holding the snapshot of its four layout fields. -/
def roomSnapshotList (rooms : List RoomDescriptor) : RoomsMap :=
  rooms.filterMap (fun r =>
    r.Data.map (fun d =>
      (roomKey r,
        ({ shape := d.Shape, stageID := d.StageID, variant := d.Variant,
           subType := d.Subtype } : RoomData))))

/-- The state in which the end-to-end seed-exploration scenario starts: the
mod is registered, the remembered seed string matches the arriving floors'
seed, and the cursor is at its initial position. -/
def endToEndStart : ModState :=
  { initialModState with
    mod := some ()
    currentStartSeedString := some ("SEED") }

/-- Observables of the end-to-end scenario: after 43 floor arrivals for seed
"SEED", the completed-seed counter, the restart flag, the dataset's seed
keys, and (entry count, floor keys) of the dataset's record for "SEED". -/
def endToEndResult :
    Option (Nat × Bool × List String × Option (Nat × List String)) :=
  match iterNewLevel 43 ("SEED") [] endToEndStart with
  | Except.error _ => none
  | Except.ok st =>
    some (st.seedsMapSize, st.restart, luaKeys st.seedsMap,
      (luaGet st.seedsMap ("SEED")).map (fun fm => (fm.length, luaKeys fm)))

/-- The five structural ineligibility conditions of `validateRun`. -/
def ineligibleRun (inp : RunInputs) : Prop :=
  inp.continued = true ∨ inp.onSetSeed = true ∨
    inp.difficulty ≠ DIFFICULTY_NORMAL ∨ inp.challenge ≠ CHALLENGE_NULL ∨
    inp.character ≠ PLAYER_ISAAC

instance (inp : RunInputs) : Decidable (ineligibleRun inp) := by
  unfold ineligibleRun
  infer_instance

/-- Eligible run inputs: all five structural checks pass and curse
suppression is already present. -/
def inpEligible : RunInputs :=
  { continued := false
    startSeedString := "SEED"
    onSetSeed := false
    difficulty := DIFFICULTY_NORMAL
    challenge := CHALLENGE_NULL
    character := PLAYER_ISAAC
    hasPreventAllCurses := true }

/-- Run inputs for a continued run (structurally ineligible). -/
def inpContinued : RunInputs :=
  { inpEligible with continued := true }

/-- A state whose traversal cursor is mid-seed, at (3, 2). -/
def stMidSeed : ModState :=
  { initialModState with
    mod := some ()
    recordingStage := 3
    recordingStageType := 2 }

/-- Counterexample data for the re-entry claim: a room snapshot. -/
def roomA : RoomData := { shape := 1, stageID := 2, variant := 3, subType := 4 }

/-- Counterexample data for the re-entry claim: the SeedRecord previously
folded for seed "A". -/
def fmOld : FloorsMap := []

/-- Counterexample data for the re-entry claim: the in-progress SeedRecord at
re-entry, different from `fmOld`. -/
def fmNew : FloorsMap := [("1.0", [("0", roomA)])]

/-- Counterexample state for the re-entry claim: seed "A" has already been
folded (it is in `seedsMap`), and `floorsMap` holds a different in-progress
record. -/
def stC4 : ModState :=
  { initialModState with
    mod := some ()
    currentStartSeedString := some ("A")
    seedsMap := [("A", fmOld)]
    seedsMapSize := 1
    floorsMap := fmNew }

/-- A state with 99 seeds already completed (the next fold is the 100th). -/
def stAt99 : ModState :=
  { initialModState with mod := some (), seedsMapSize := 99 }

/-- A state with 36 seeds already completed (the next fold is the 37th). -/
def stAt36 : ModState :=
  { initialModState with mod := some (), seedsMapSize := 36 }

/-- Whether a fold starting from `st` performs a durable write. -/
def foldSaves (st : ModState) (seed : String) : Bool :=
  match recordAllFloorsToSeedMap st seed with
  | Except.ok (_, cmds) => hasSaveCmd cmds
  | Except.error _ => false

/-- Five room descriptors, one of which (grid index 30) lacks layout data. -/
def witnessRooms : List RoomDescriptor :=
  [⟨0, some ⟨1, 1, 10, 0⟩⟩, ⟨15, some ⟨2, 1, 20, 0⟩⟩, ⟨30, none⟩,
   ⟨45, some ⟨3, 1, 30, 1⟩⟩, ⟨-2, some ⟨4, 1, 40, 2⟩⟩]

/-! ## Lemmas about Lua-table operations -/

lemma luaKeys_luaSet {α : Type} (m : List (String × α)) (k : String) (v : α) :
    luaKeys (luaSet m k v) =
      if k ∈ luaKeys m then luaKeys m else luaKeys m ++ [k] := by
  induction m with
  | nil => simp [luaSet, luaKeys]
  | cons p m ih =>
    by_cases h : p.1 = k
    · simp [luaSet, luaKeys, h]
    · have hb : (p.1 == k) = false := by simp [h]
      simp only [luaKeys, List.map_cons] at *
      simp only [luaSet, hb, Bool.false_eq_true, if_false, List.map_cons]
      by_cases hk : k ∈ m.map Prod.fst
      · simp [hk, ih, Ne.symm h]
      · simp [hk, ih, Ne.symm h]

lemma luaSet_of_not_mem {α : Type} {m : List (String × α)} {k : String}
    (hk : ¬k ∈ luaKeys m) (v : α) : luaSet m k v = m ++ [(k, v)] := by
  induction m with
  | nil => simp [luaSet]
  | cons p m ih =>
    simp only [luaKeys, List.map_cons, List.mem_cons] at hk
    push_neg at hk
    have hb : (p.1 == k) = false := by simp [Ne.symm hk.1]
    simp only [luaSet, hb, Bool.false_eq_true, if_false, List.cons_append,
      List.cons.injEq, true_and]
    exact ih hk.2

lemma luaKeys_nodup_luaSet {α : Type} {m : List (String × α)}
    (h : (luaKeys m).Nodup) (k : String) (v : α) :
    (luaKeys (luaSet m k v)).Nodup := by
  rw [luaKeys_luaSet]
  by_cases hk : k ∈ luaKeys m
  · rwa [if_pos hk]
  · rw [if_neg hk, List.nodup_append]
    refine ⟨h, List.nodup_singleton _, ?_⟩
    intro x hx hx2
    simp only [List.mem_singleton] at hx2
    subst hx2
    exact hk hx

lemma luaGet_luaSet_self {α : Type} (m : List (String × α)) (k : String)
    (v : α) : luaGet (luaSet m k v) k = some v := by
  induction m with
  | nil => simp [luaSet, luaGet]
  | cons p m ih =>
    by_cases h : p.1 = k
    · simp [luaSet, luaGet, h]
    · have hb : (p.1 == k) = false := by simp [h]
      simp only [luaSet, hb, Bool.false_eq_true, if_false]
      simpa [luaGet, List.find?, hb] using ih

lemma luaGet_of_mem {α : Type} {m : List (String × α)} {k : String} {v : α}
    (hnd : (luaKeys m).Nodup) (hm : (k, v) ∈ m) : luaGet m k = some v := by
  induction m with
  | nil => simp at hm
  | cons p m ih =>
    simp only [luaKeys, List.map_cons, List.nodup_cons] at hnd
    rcases List.mem_cons.mp hm with rfl | hm'
    · simp [luaGet, List.find?]
    · have hk : (p.1 == k) = false := by
        have hkm : k ∈ luaKeys m := List.mem_map.mpr ⟨(k, v), hm', rfl⟩
        simp only [beq_eq_false_iff_ne, ne_eq]
        rintro rfl
        exact hnd.1 hkm
      simpa [luaGet, List.find?, hk] using ih hnd.2 hm'

/-! ## Lemmas about the cursor -/

lemma getMaxStageType_le (s : Nat) :
    getMaxStageType s ≤ STAGETYPE_REPENTANCE_B := by
  unfold getMaxStageType
  split_ifs <;> decide

lemma validCursor_bounds {c : Cursor} (h : ValidCursor c) :
    c.stage < 14 ∧ c.stageType < 6 := by
  obtain ⟨-, h2, -, -, h5, -⟩ := h
  have h6 := getMaxStageType_le c.stage
  unfold FINAL_STAGE STAGE8 at h2
  unfold STAGETYPE_REPENTANCE_B at h6
  omega

lemma validCursor_step : ∀ s, s < 14 → ∀ t, t < 6 →
    ValidCursor ⟨s, t⟩ → ValidCursor (incrementStageTypeCursor ⟨s, t⟩).1 := by
  decide

/-! ## Lemmas about the fold and the stateful advance -/

lemma recordAllFloorsToSeedMap_eq (st : ModState) (seed : String) :
    recordAllFloorsToSeedMap st seed =
      if (st.seedsMapSize + 1) % NUMBER_OF_SEEDS_BEFORE_WRITING_TO_DISK = 0 then
        match st.mod with
        | none => Except.error ("Mod was not initialized.")
        | some _ =>
          Except.ok
            ({ st with seedsMap := luaSet st.seedsMap seed st.floorsMap,
                       seedsMapSize := st.seedsMapSize + 1 },
              [Cmd.debugString ("Recorded seed: " ++ seed),
               Cmd.debugString ("Total seeds: " ++ toString (st.seedsMapSize + 1)),
               Cmd.saveData (luaSet st.seedsMap seed st.floorsMap),
               Cmd.debugString ("Recorded data to the \"save#.dat\" file.")])
      else
        Except.ok
          ({ st with seedsMap := luaSet st.seedsMap seed st.floorsMap,
                     seedsMapSize := st.seedsMapSize + 1 },
            [Cmd.debugString ("Recorded seed: " ++ seed),
             Cmd.debugString ("Total seeds: " ++ toString (st.seedsMapSize + 1))]) := by
  unfold recordAllFloorsToSeedMap writeAllRecordedDataToSaveDatFile VERBOSE
  cases st.mod <;> split <;> simp_all

lemma recordAllFloorsToSeedMap_spec {st : ModState} {seed : String}
    {st' : ModState} {cmds : List Cmd}
    (h : recordAllFloorsToSeedMap st seed = Except.ok (st', cmds)) :
    st' = { st with seedsMap := luaSet st.seedsMap seed st.floorsMap,
                    seedsMapSize := st.seedsMapSize + 1 } ∧
    (hasSaveCmd cmds = true ↔
      (st.seedsMapSize + 1) % NUMBER_OF_SEEDS_BEFORE_WRITING_TO_DISK = 0) := by
  rw [recordAllFloorsToSeedMap_eq] at h
  by_cases h100 : (st.seedsMapSize + 1) % NUMBER_OF_SEEDS_BEFORE_WRITING_TO_DISK = 0
  · rw [if_pos h100] at h
    cases hmod : st.mod with
    | none => rw [hmod] at h; exact absurd h (by simp)
    | some u =>
      rw [hmod] at h
      obtain ⟨rfl, rfl⟩ : st' = _ ∧ cmds = _ := by
        injection h with h2
        injection h2 with h3 h4
        exact ⟨h3.symm, h4.symm⟩
      exact ⟨rfl, by simp [hasSaveCmd, h100]⟩
  · rw [if_neg h100] at h
    obtain ⟨rfl, rfl⟩ : st' = _ ∧ cmds = _ := by
      injection h with h2
      injection h2 with h3 h4
      exact ⟨h3.symm, h4.symm⟩
    refine ⟨rfl, ?_⟩
    simp [hasSaveCmd, h100]

lemma recordAllFloorsToSeedMap_ok {st : ModState} (seed : String)
    (hmod : st.mod = some ()) :
    ∃ st' cmds, recordAllFloorsToSeedMap st seed = Except.ok (st', cmds) := by
  rw [recordAllFloorsToSeedMap_eq, hmod]
  by_cases h100 : (st.seedsMapSize + 1) % NUMBER_OF_SEEDS_BEFORE_WRITING_TO_DISK = 0
  · rw [if_pos h100]; exact ⟨_, _, rfl⟩
  · rw [if_neg h100]; exact ⟨_, _, rfl⟩

lemma incrementStage_spec {st : ModState} {seed : String} {st' : ModState}
    {cmds : List Cmd} {done : Bool}
    (h : incrementStage st seed = Except.ok (st', cmds, done)) :
    (done = false → cmds = [] ∧ st'.seedsMapSize = st.seedsMapSize ∧
      st'.seedsMap = st.seedsMap ∧ st'.restart = st.restart) ∧
    (done = true → st'.seedsMapSize = st.seedsMapSize + 1 ∧ st'.restart = true ∧
      (hasSaveCmd cmds = true ↔
        st'.seedsMapSize % NUMBER_OF_SEEDS_BEFORE_WRITING_TO_DISK = 0)) := by
  unfold incrementStage at h
  by_cases hw : (incrementStageCursor st.recordingStage).2 = true
  · simp only [hw, if_true] at h
    cases hF : recordAllFloorsToSeedMap
        { st with recordingStage := (incrementStageCursor st.recordingStage).1 }
        seed with
    | error e => rw [hF] at h; exact absurd h (by simp)
    | ok out =>
      obtain ⟨stf, cmdsf⟩ := out
      rw [hF] at h
      obtain ⟨hspec1, hspec2⟩ := recordAllFloorsToSeedMap_spec hF
      obtain ⟨rfl, rfl, rfl⟩ : st' = restartOnNextFrame stf ∧ cmds = cmdsf ∧
          done = true := by
        injection h with h2
        injection h2 with h3 h4
        injection h4 with h5 h6
        exact ⟨h3.symm, h5.symm, h6.symm⟩
      refine ⟨by simp, fun _ => ?_⟩
      subst hspec1
      exact ⟨rfl, rfl, hspec2⟩
  · simp only [hw, if_false] at h
    obtain ⟨rfl, rfl, rfl⟩ :
        st' = { st with
          recordingStage := (incrementStageCursor st.recordingStage).1 } ∧
          cmds = [] ∧ done = false := by
      injection h with h2
      injection h2 with h3 h4
      injection h4 with h5 h6
      exact ⟨h3.symm, h5.symm, h6.symm⟩
    simp

lemma incrementStageType_spec {st : ModState} {seed : String} {st' : ModState}
    {cmds : List Cmd} {done : Bool}
    (h : incrementStageType st seed = Except.ok (st', cmds, done)) :
    (done = false → cmds = [] ∧ st'.seedsMapSize = st.seedsMapSize ∧
      st'.seedsMap = st.seedsMap ∧ st'.restart = st.restart) ∧
    (done = true → st'.seedsMapSize = st.seedsMapSize + 1 ∧ st'.restart = true ∧
      (hasSaveCmd cmds = true ↔
        st'.seedsMapSize % NUMBER_OF_SEEDS_BEFORE_WRITING_TO_DISK = 0)) := by
  unfold incrementStageType at h
  by_cases hx : (if st.recordingStageType + 1 = STAGETYPE_GREEDMODE then
      st.recordingStageType + 1 + 1 else st.recordingStageType + 1) >
      getMaxStageType st.recordingStage
  · rw [if_pos hx] at h
    simpa using incrementStage_spec h
  · rw [if_neg hx] at h
    obtain ⟨rfl, rfl, rfl⟩ : st' = _ ∧ cmds = [] ∧ done = false := by
      injection h with h2
      injection h2 with h3 h4
      injection h4 with h5 h6
      exact ⟨h3.symm, h5.symm, h6.symm⟩
    simp

lemma moveToNextFloor_spec {st : ModState} {seed : String} {st' : ModState}
    {cmds : List Cmd} (h : moveToNextFloor st seed = Except.ok (st', cmds)) :
    ∃ cmds0 done, incrementStageType st seed = Except.ok (st', cmds0, done) ∧
      hasSaveCmd cmds = hasSaveCmd cmds0 := by
  unfold moveToNextFloor at h
  cases hI : incrementStageType st seed with
  | error e => rw [hI] at h; exact absurd h (by simp)
  | ok out =>
    obtain ⟨st2, cmds2, done⟩ := out
    rw [hI] at h
    cases done with
    | true =>
      obtain ⟨rfl, rfl⟩ : st' = st2 ∧ cmds = cmds2 := by
        injection h with h2
        injection h2 with h3 h4
        exact ⟨h3.symm, h4.symm⟩
      exact ⟨_, _, rfl, rfl⟩
    | false =>
      obtain ⟨rfl, rfl⟩ : st' = st2 ∧ cmds = _ := by
        injection h with h2
        injection h2 with h3 h4
        exact ⟨h3.symm, h4.symm⟩
      exact ⟨_, _, rfl, by simp [hasSaveCmd, VERBOSE]⟩

lemma postNewLevel_matched_spec {st : ModState} {seed : String} {es et : Nat}
    {rooms : List RoomDescriptor} {st' : ModState} {cmds : List Cmd}
    (hm : ¬some seed ≠ st.currentStartSeedString)
    (h : postNewLevel st seed es et rooms = Except.ok (st', cmds)) :
    ∃ cmds1, moveToNextFloor (recordFloor st rooms) seed =
        Except.ok (st', cmds1) ∧
      hasSaveCmd cmds = hasSaveCmd cmds1 := by
  unfold postNewLevel at h
  rw [if_neg hm] at h
  simp only at h
  cases hM : moveToNextFloor (recordFloor st rooms) seed with
  | error e => rw [hM] at h; exact absurd h (by simp)
  | ok out =>
    obtain ⟨st2, cmds2⟩ := out
    rw [hM] at h
    obtain ⟨rfl, rfl⟩ : st' = st2 ∧ cmds = _ := by
      injection h with h2
      injection h2 with h3 h4
      exact ⟨h3.symm, h4.symm⟩
    exact ⟨_, rfl, by simp [hasSaveCmd, VERBOSE]⟩

lemma postNewLevel_save {st : ModState} {seed : String} {es et : Nat}
    {rooms : List RoomDescriptor} {st' : ModState} {cmds : List Cmd}
    (h : postNewLevel st seed es et rooms = Except.ok (st', cmds))
    (hsave : hasSaveCmd cmds = true) :
    st'.seedsMapSize = st.seedsMapSize + 1 ∧
    st'.seedsMapSize % NUMBER_OF_SEEDS_BEFORE_WRITING_TO_DISK = 0 ∧
    st'.restart = true := by
  by_cases hm : some seed ≠ st.currentStartSeedString
  · unfold postNewLevel at h
    rw [if_pos hm] at h
    obtain ⟨-, rfl⟩ : st' = _ ∧ cmds = _ := by
      injection h with h2
      injection h2 with h3 h4
      exact ⟨h3.symm, h4.symm⟩
    simp [hasSaveCmd, VERBOSE] at hsave
  · obtain ⟨cmds1, hM, hsv1⟩ := postNewLevel_matched_spec hm h
    obtain ⟨cmds0, done, hI, hsv0⟩ := moveToNextFloor_spec hM
    have hsave0 : hasSaveCmd cmds0 = true := by rw [← hsv0, ← hsv1]; exact hsave
    have hrf : (recordFloor st rooms).seedsMapSize = st.seedsMapSize := rfl
    obtain ⟨hfalse, htrue⟩ := incrementStageType_spec hI
    cases done with
    | true =>
      obtain ⟨hsz, hrs, hiff⟩ := htrue rfl
      rw [hrf] at hsz
      exact ⟨hsz, hiff.mp hsave0, hrs⟩
    | false =>
      obtain ⟨rfl, -, -, -⟩ := hfalse rfl
      simp [hasSaveCmd] at hsave0

/-! ## Lemmas about the floor extraction -/

lemma buildRoomsMap_go :
    ∀ (rooms : List RoomDescriptor) (m : RoomsMap),
    (∀ k ∈ dataKeys rooms, ¬k ∈ luaKeys m) →
    (dataKeys rooms).Nodup →
    List.foldl recordRoomStep m rooms = m ++ roomSnapshotList rooms := by
  intro rooms
  induction rooms with
  | nil => intro m _ _; simp [roomSnapshotList]
  | cons r rs ih =>
    intro m hdisj hnd
    cases hd : r.Data with
    | none =>
      have hdk : dataKeys (r :: rs) = dataKeys rs := by
        simp [dataKeys, List.filter_cons, hd]
      rw [List.foldl_cons]
      have hstep : recordRoomStep m r = m := by simp [recordRoomStep, hd]
      rw [hstep]
      have hsnap : roomSnapshotList (r :: rs) = roomSnapshotList rs := by
        simp [roomSnapshotList, List.filterMap_cons, hd]
      rw [hsnap]
      exact ih m (by rw [hdk] at hdisj; exact hdisj) (by rw [hdk] at hnd; exact hnd)
    | some d =>
      have hdk : dataKeys (r :: rs) = roomKey r :: dataKeys rs := by
        simp [dataKeys, List.filter_cons, hd]
      rw [hdk] at hdisj hnd
      have hkey : ¬roomKey r ∈ luaKeys m := hdisj (roomKey r) (List.mem_cons_self _ _)
      have hstep : recordRoomStep m r =
          m ++ [(roomKey r,
            ({ shape := d.Shape, stageID := d.StageID, variant := d.Variant,
               subType := d.Subtype } : RoomData))] := by
        simp only [recordRoomStep, hd]
        exact luaSet_of_not_mem hkey _
      rw [List.foldl_cons, hstep]
      have hsnap : roomSnapshotList (r :: rs) =
          (roomKey r,
            ({ shape := d.Shape, stageID := d.StageID, variant := d.Variant,
               subType := d.Subtype } : RoomData)) :: roomSnapshotList rs := by
        simp [roomSnapshotList, List.filterMap_cons, hd, roomKey]
      rw [hsnap]
      have hih := ih (m ++ [(roomKey r,
            ({ shape := d.Shape, stageID := d.StageID, variant := d.Variant,
               subType := d.Subtype } : RoomData))]) ?_ (List.Nodup.of_cons hnd)
      · rw [hih, List.append_assoc]
        rfl
      · intro k hk
        have hk1 : ¬k ∈ luaKeys m := hdisj k (List.mem_cons_of_mem _ hk)
        have hk2 : k ≠ roomKey r := by
          rintro rfl
          exact (List.nodup_cons.mp hnd).1 hk
        unfold luaKeys at hk1 ⊢
        rw [List.map_append, List.mem_append]
        rintro (h1 | h2)
        · exact hk1 h1
        · simp only [List.map_cons, List.map_nil, List.mem_singleton] at h2
          exact hk2 h2

lemma buildRoomsMap_eq (rooms : List RoomDescriptor)
    (hnd : (dataKeys rooms).Nodup) :
    buildRoomsMap rooms = roomSnapshotList rooms := by
  have h := buildRoomsMap_go rooms [] (by simp [luaKeys]) hnd
  simpa [buildRoomsMap] using h

lemma luaKeys_roomSnapshotList (rooms : List RoomDescriptor) :
    luaKeys (roomSnapshotList rooms) = dataKeys rooms := by
  induction rooms with
  | nil => rfl
  | cons r rs ih =>
    cases hd : r.Data with
    | none =>
      have h1 : roomSnapshotList (r :: rs) = roomSnapshotList rs := by
        simp [roomSnapshotList, List.filterMap_cons, hd]
      have h2 : dataKeys (r :: rs) = dataKeys rs := by
        simp [dataKeys, List.filter_cons, hd]
      rw [h1, h2]
      exact ih
    | some d =>
      have h1 : roomSnapshotList (r :: rs) =
          (roomKey r,
            ({ shape := d.Shape, stageID := d.StageID, variant := d.Variant,
               subType := d.Subtype } : RoomData)) :: roomSnapshotList rs := by
        simp [roomSnapshotList, List.filterMap_cons, hd]
      have h2 : dataKeys (r :: rs) = roomKey r :: dataKeys rs := by
        simp [dataKeys, List.filter_cons, hd]
      rw [h1, h2]
      unfold luaKeys at ih ⊢
      simp [ih]

/-! ## Claim theorems -/

/-- C2: starting from the initial cursor (first stage, base variant), after
any number of variant-advance operations the cursor denotes a valid pair: the
stage lies in the first-to-final range and outside the excluded-stage set,
the stage type lies between the base variant and the per-stage maximum given
by `getMaxStageType`, and the stage type is never the unused Greed-mode
variant ordinal. -/
theorem C2_cursor_always_valid : ∀ n, ValidCursor (cursorAfter n) := by
  intro n
  induction n with
  | zero => decide
  | succ n ih =>
    obtain ⟨h1, h2⟩ := validCursor_bounds ih
    exact validCursor_step (cursorAfter n).stage h1 (cursorAfter n).stageType h2 ih

/-- C1: repeatedly applying the variant advance from the cursor (first stage,
base variant) until it reports completion visits every non-excluded stage
exactly once, in non-decreasing order, pairing each such stage with exactly
the variants admitted by `getMaxStageType` minus the Greed-mode ordinal; the
traversal has exactly 43 (stage, stageType) pairs, and the end-to-end
scenario — 43 floor arrivals for one seed — produces a dataset whose record
for that seed holds exactly 43 floor entries keyed "`stage`.`stageType`". -/
theorem C1_full_seed_traversal :
    seedTraversal.length = 43 ∧
    seedTraversal = traverseFrom 1000 initialCursor ∧
    sortedLE (seedTraversal.map (·.stage)) = true ∧
    (seedTraversal.map (·.stage)).dedup = nonExcludedStages ∧
    seedTraversal.Nodup ∧
    (nonExcludedStages.map
      (fun s => (seedTraversal.filter (fun c => c.stage == s)).map (·.stageType)) =
      nonExcludedStages.map
        (fun s => (List.range (getMaxStageType s + 1)).filter
          (fun t => t ≠ STAGETYPE_GREEDMODE))) ∧
    endToEndResult =
      some (1, true, ["SEED"],
        some (43, seedTraversal.map (fun c => floorsMapIndex c.stage c.stageType))) := by
  refine ⟨by decide, by decide, by decide, by decide, by decide, by decide,
    by decide⟩

/-- C8: for the two stages with the `STAGETYPE_REPENTANCE` ceiling (7 and 8)
the traversal reaches exactly the variants up to that ceiling, the ceiling
included; for the zero-variant stage 12 (The Void) only the base variant is
visited before the sequencer moves on. -/
theorem C8_variant_ceiling_stages :
    getMaxStageType 7 = STAGETYPE_REPENTANCE ∧
    getMaxStageType 8 = STAGETYPE_REPENTANCE ∧
    getMaxStageType 12 = STAGETYPE_ORIGINAL ∧
    (seedTraversal.filter (fun c => c.stage == 7)).map (·.stageType) =
      [STAGETYPE_ORIGINAL, STAGETYPE_WOTL, STAGETYPE_AFTERBIRTH,
        STAGETYPE_REPENTANCE] ∧
    (seedTraversal.filter (fun c => c.stage == 8)).map (·.stageType) =
      [STAGETYPE_ORIGINAL, STAGETYPE_WOTL, STAGETYPE_AFTERBIRTH,
        STAGETYPE_REPENTANCE] ∧
    (seedTraversal.filter (fun c => c.stage == 12)).map (·.stageType) =
      [STAGETYPE_ORIGINAL] := by
  refine ⟨by decide, by decide, by decide, by decide, by decide, by decide⟩

/-- C3: the fold (`recordAllFloorsToSeedMap`) always bumps the completed-seed
counter and performs the durable write exactly when the new counter is a
multiple of `NUMBER_OF_SEEDS_BEFORE_WRITING_TO_DISK` (hence a positive
multiple); and a floor-arrival (`postNewLevel`) emits a durable write only
when it just completed a seed fold with the counter at such a multiple —
never for a floor recorded within a seed. -/
theorem C3_write_batching :
    (∀ (st : ModState) (seed : String), st.mod = some () →
      ∃ st' cmds, recordAllFloorsToSeedMap st seed = Except.ok (st', cmds) ∧
        st'.seedsMapSize = st.seedsMapSize + 1 ∧
        (hasSaveCmd cmds = true ↔
          st'.seedsMapSize % NUMBER_OF_SEEDS_BEFORE_WRITING_TO_DISK = 0) ∧
        (hasSaveCmd cmds = true →
          ∃ j, 0 < j ∧
            st'.seedsMapSize = NUMBER_OF_SEEDS_BEFORE_WRITING_TO_DISK * j)) ∧
    (∀ (st : ModState) (seed : String) (es et : Nat)
        (rooms : List RoomDescriptor) (st' : ModState) (cmds : List Cmd),
      postNewLevel st seed es et rooms = Except.ok (st', cmds) →
      hasSaveCmd cmds = true →
      st'.seedsMapSize = st.seedsMapSize + 1 ∧
      st'.seedsMapSize % NUMBER_OF_SEEDS_BEFORE_WRITING_TO_DISK = 0) := by
  constructor
  · intro st seed hmod
    obtain ⟨st', cmds, hok⟩ := recordAllFloorsToSeedMap_ok seed hmod
    obtain ⟨hst, hiff⟩ := recordAllFloorsToSeedMap_spec hok
    subst hst
    refine ⟨_, _, hok, rfl, by simpa using hiff, ?_⟩
    intro hs
    have h100 := hiff.mp hs
    simp only [NUMBER_OF_SEEDS_BEFORE_WRITING_TO_DISK] at h100 ⊢
    exact ⟨(st.seedsMapSize + 1) / 100, by omega, by omega⟩
  · intro st seed es et rooms st' cmds h hsave
    obtain ⟨h1, h2, -⟩ := postNewLevel_save h hsave
    exact ⟨h1, h2⟩

/-- Witness for C3: the fold after 99 completed seeds (the 100th) performs
the durable write, the fold after 36 completed seeds (the 37th) does not. -/
theorem C3_write_batching_witness :
    (∃ st' cmds,
      recordAllFloorsToSeedMap stAt99 ("SEED") = Except.ok (st', cmds) ∧
        st'.seedsMapSize = stAt99.seedsMapSize + 1 ∧
        (hasSaveCmd cmds = true ↔
          st'.seedsMapSize % NUMBER_OF_SEEDS_BEFORE_WRITING_TO_DISK = 0) ∧
        (hasSaveCmd cmds = true →
          ∃ j, 0 < j ∧
            st'.seedsMapSize = NUMBER_OF_SEEDS_BEFORE_WRITING_TO_DISK * j)) ∧
    foldSaves stAt99 ("SEED") = true ∧
    foldSaves stAt36 ("SEED") = false :=
  ⟨C3_write_batching.1 stAt99 ("SEED") rfl, by decide, by decide⟩

/-- C4 is false as stated: re-folding an already-completed seed does NOT
raise a programming-invariant violation — `recordAllFloorsToSeedMap` returns
normally, silently overwrites the existing entry for that seed-string with
the new record, and still increments the completed-seed counter. -/
theorem C4_counterexample :
    recordAllFloorsToSeedMap stC4 ("A") =
      Except.ok ({ stC4 with seedsMap := [("A", fmNew)], seedsMapSize := 2 },
        [Cmd.debugString ("Recorded seed: A"),
         Cmd.debugString ("Total seeds: 2")]) ∧
    luaGet stC4.seedsMap ("A") = some fmOld ∧
    fmOld ≠ fmNew := by
  refine ⟨rfl, by decide, by decide⟩

/-- C4 amended: each seed-string appears at most once in the dataset (the
fold preserves key uniqueness, and folding a fresh seed appends exactly one
key), so no duplicate entry is ever created; however, re-entry into an
already-folded seed is not detected: the fold silently overwrites the stored
record for that seed-string and still increments the completed-seed
counter. -/
theorem C4_fold_at_most_once :
    ∀ (st : ModState) (seed : String), st.mod = some () →
    (luaKeys st.seedsMap).Nodup →
    ∃ st' cmds, recordAllFloorsToSeedMap st seed = Except.ok (st', cmds) ∧
      (luaKeys st'.seedsMap).Nodup ∧
      st'.seedsMapSize = st.seedsMapSize + 1 ∧
      (¬seed ∈ luaKeys st.seedsMap →
        luaKeys st'.seedsMap = luaKeys st.seedsMap ++ [seed]) ∧
      (seed ∈ luaKeys st.seedsMap →
        luaKeys st'.seedsMap = luaKeys st.seedsMap ∧
        luaGet st'.seedsMap seed = some st.floorsMap) := by
  intro st seed hmod hnd
  obtain ⟨st', cmds, hok⟩ := recordAllFloorsToSeedMap_ok seed hmod
  obtain ⟨hst, -⟩ := recordAllFloorsToSeedMap_spec hok
  subst hst
  refine ⟨_, _, hok, ?_, rfl, ?_, ?_⟩
  · simpa using luaKeys_nodup_luaSet hnd seed st.floorsMap
  · intro hnotmem
    simp [luaKeys_luaSet, hnotmem]
  · intro hmem
    constructor
    · simp [luaKeys_luaSet, hmem]
    · simpa using luaGet_luaSet_self st.seedsMap seed st.floorsMap

/-- Witness for the amended C4, at the concrete re-entry state `stC4`. -/
theorem C4_fold_at_most_once_witness :
    ∃ st' cmds, recordAllFloorsToSeedMap stC4 ("A") = Except.ok (st', cmds) ∧
      (luaKeys st'.seedsMap).Nodup ∧
      st'.seedsMapSize = stC4.seedsMapSize + 1 ∧
      (¬"A" ∈ luaKeys stC4.seedsMap →
        luaKeys st'.seedsMap = luaKeys stC4.seedsMap ++ ["A"]) ∧
      ("A" ∈ luaKeys stC4.seedsMap →
        luaKeys st'.seedsMap = luaKeys stC4.seedsMap ∧
        luaGet st'.seedsMap ("A") = some stC4.floorsMap) :=
  C4_fold_at_most_once stC4 ("A") rfl (by decide)

/-- C5: a floor arrival whose seed-string differs from the remembered one
only updates the remembered seed-string: the in-progress floor map, the
dataset, the cursor, the completed-seed counter, the restart flag and the mod
handle are unchanged, and no floor-load, durable-write or restart command is
issued. -/
theorem C5_seed_mismatch_no_action :
    ∀ (st : ModState) (seed : String) (es et : Nat)
      (rooms : List RoomDescriptor),
    some seed ≠ st.currentStartSeedString →
    ∃ st' cmds, postNewLevel st seed es et rooms = Except.ok (st', cmds) ∧
      st'.currentStartSeedString = some seed ∧
      st'.floorsMap = st.floorsMap ∧
      st'.seedsMap = st.seedsMap ∧
      st'.recordingStage = st.recordingStage ∧
      st'.recordingStageType = st.recordingStageType ∧
      st'.seedsMapSize = st.seedsMapSize ∧
      st'.restart = st.restart ∧
      st'.mod = st.mod ∧
      hasGoToStageCmd cmds = false ∧
      hasSaveCmd cmds = false ∧
      ¬Cmd.executeCommand ("restart") ∈ cmds := by
  intro st seed es et rooms hne
  unfold postNewLevel
  rw [if_pos hne]
  refine ⟨_, _, rfl, rfl, rfl, rfl, rfl, rfl, rfl, rfl, rfl, ?_, ?_, ?_⟩
  · simp [hasGoToStageCmd, VERBOSE]
  · simp [hasSaveCmd, VERBOSE]
  · simp [VERBOSE]

/-- Witness for C5: the very first floor arrival (no remembered seed). -/
theorem C5_seed_mismatch_no_action_witness :
    ∃ st' cmds,
      postNewLevel initialModState ("SEED") 2 0 [] = Except.ok (st', cmds) ∧
      st'.currentStartSeedString = some ("SEED") ∧
      st'.floorsMap = initialModState.floorsMap ∧
      st'.seedsMap = initialModState.seedsMap ∧
      st'.recordingStage = initialModState.recordingStage ∧
      st'.recordingStageType = initialModState.recordingStageType ∧
      st'.seedsMapSize = initialModState.seedsMapSize ∧
      st'.restart = initialModState.restart ∧
      st'.mod = initialModState.mod ∧
      hasGoToStageCmd cmds = false ∧
      hasSaveCmd cmds = false ∧
      ¬Cmd.executeCommand ("restart") ∈ cmds :=
  C5_seed_mismatch_no_action initialModState ("SEED") 2 0 [] (by decide)

/-- C6 is false as stated in its eligible branch: when the cursor is not at
the first pair, an eligible run start commands the host to load the cursor's
pair (3, 2), not the first pair (1, 0). -/
theorem C6_counterexample :
    postGameStarted stMidSeed inpEligible =
      Except.ok ({ stMidSeed with floorsMap := [] },
        [Cmd.debugString ("MC_POST_GAME_STARTED - SEED"), Cmd.goToStage 3 2]) ∧
    ¬Cmd.goToStage STAGE1_1 STAGETYPE_ORIGINAL ∈
        [Cmd.debugString ("MC_POST_GAME_STARTED - SEED"), Cmd.goToStage 3 2] := by
  refine ⟨rfl, by decide⟩

/-- C6 amended: `postGameStarted` aborts with a diagnostic error iff one of
the five structural ineligibility conditions holds; if eligible but curse
suppression is absent it applies the seed effect, schedules a restart for the
next render tick, and returns without resetting the accumulator or loading a
floor; otherwise it resets the accumulator to empty and commands the host to
load the current cursor's (stage, stageType) pair (which is the first pair
exactly when the cursor is at its initial/post-wrap position). -/
theorem C6_run_start_validation :
    ∀ (st : ModState) (inp : RunInputs),
    ((∃ e, postGameStarted st inp = Except.error e) ↔ ineligibleRun inp) ∧
    (¬ineligibleRun inp → inp.hasPreventAllCurses = false →
      ∃ st' cmds, postGameStarted st inp = Except.ok (st', cmds) ∧
        st'.restart = true ∧
        st'.floorsMap = st.floorsMap ∧
        Cmd.addSeedEffect ∈ cmds ∧
        hasGoToStageCmd cmds = false ∧
        ¬Cmd.executeCommand ("restart") ∈ cmds) ∧
    (¬ineligibleRun inp → inp.hasPreventAllCurses = true →
      ∃ cmds, postGameStarted st inp =
          Except.ok ({ st with floorsMap := [] }, cmds) ∧
        Cmd.goToStage st.recordingStage st.recordingStageType ∈ cmds ∧
        ¬Cmd.addSeedEffect ∈ cmds) := by
  intro st inp
  unfold postGameStarted validateRun ineligibleRun
  cases hc : inp.continued <;> cases hs : inp.onSetSeed <;>
    by_cases hd : inp.difficulty = DIFFICULTY_NORMAL <;>
    by_cases hch : inp.challenge = CHALLENGE_NULL <;>
    by_cases hp : inp.character = PLAYER_ISAAC <;>
    cases hcur : inp.hasPreventAllCurses <;>
    simp_all [VERBOSE, hasGoToStageCmd, restartOnNextFrame]
  exact ⟨_, _, ⟨rfl, rfl⟩, rfl, rfl, by simp, by simp, by simp⟩

/-- Witness for the amended C6: a continued run errors out, and an eligible
run start at the mid-seed cursor (3, 2) loads exactly that pair. -/
theorem C6_run_start_validation_witness :
    (∃ e, postGameStarted stMidSeed inpContinued = Except.error e) ∧
    (∃ cmds, postGameStarted stMidSeed inpEligible =
        Except.ok ({ stMidSeed with floorsMap := [] }, cmds) ∧
      Cmd.goToStage stMidSeed.recordingStage stMidSeed.recordingStageType ∈ cmds ∧
      ¬Cmd.addSeedEffect ∈ cmds) :=
  ⟨(C6_run_start_validation stMidSeed inpContinued).1.mpr (Or.inl rfl),
   (C6_run_start_validation stMidSeed inpEligible).2.2 (by decide) rfl⟩

/-- C7: with pairwise-distinct position keys (true of an engine floor's room
collection), the extracted floor record maps the key of each descriptor with
available layout data to the snapshot of exactly its shape, stage id, variant
and subtype fields, holds no entry for data-less descriptors, and has exactly
one entry per descriptor with data. -/
theorem C7_room_extraction :
    ∀ rooms : List RoomDescriptor, (dataKeys rooms).Nodup →
    (∀ r ∈ rooms, ∀ d, r.Data = some d →
      luaGet (buildRoomsMap rooms) (roomKey r) =
        some { shape := d.Shape, stageID := d.StageID, variant := d.Variant,
               subType := d.Subtype }) ∧
    (∀ p ∈ buildRoomsMap rooms, ∃ r, r ∈ rooms ∧ r.Data ≠ none ∧
      p.1 = roomKey r) ∧
    (buildRoomsMap rooms).length =
      (rooms.filter (fun r => r.Data.isSome)).length := by
  intro rooms hnd
  rw [buildRoomsMap_eq rooms hnd]
  refine ⟨?_, ?_, ?_⟩
  · intro r hr d hd
    apply luaGet_of_mem
    · rw [luaKeys_roomSnapshotList]
      exact hnd
    · apply List.mem_filterMap.mpr
      exact ⟨r, hr, by rw [hd]; rfl⟩
  · intro p hp
    obtain ⟨r, hr, heq⟩ := List.mem_filterMap.mp hp
    cases hd : r.Data with
    | none => rw [hd] at heq; simp at heq
    | some d =>
      rw [hd] at heq
      refine ⟨r, hr, by simp [hd], ?_⟩
      obtain ⟨rfl⟩ : p = _ := by injection heq with h2; exact h2.symm
      rfl
  · have h := congrArg List.length (luaKeys_roomSnapshotList rooms)
    simpa [luaKeys, dataKeys] using h

/-- Witness for C7: five descriptors of which one lacks layout data yield a
floor record with exactly four entries. -/
theorem C7_room_extraction_witness :
    (dataKeys witnessRooms).Nodup ∧
    (buildRoomsMap witnessRooms).length = 4 :=
  ⟨by decide,
   ((C7_room_extraction witnessRooms (by decide)).2.2).trans (by decide)⟩

/-- C9: a scheduled restart is a one-shot deferred action: setting the flag
(`restartOnNextFrame`) only sets the flag and issues no command; the restart
console command is issued only by `postRender`, which clears the flag as it
consumes it, so a second render issues nothing. -/
theorem C9_restart_deferred_one_shot :
    ∀ st : ModState,
    restartOnNextFrame st = { st with restart := true } ∧
    (st.restart = true →
      postRender st = ({ st with restart := false },
        [Cmd.executeCommand ("restart")])) ∧
    (st.restart = false → postRender st = (st, [])) ∧
    (postRender (restartOnNextFrame st)).2 = [Cmd.executeCommand ("restart")] ∧
    (postRender (restartOnNextFrame st)).1.restart = false ∧
    (postRender (postRender (restartOnNextFrame st)).1).2 = [] := by
  intro st
  refine ⟨rfl, fun h => ?_, fun h => ?_, ?_, ?_, ?_⟩
  · simp [postRender, h]
  · simp [postRender, h]
  · simp [postRender, restartOnNextFrame]
  · simp [postRender, restartOnNextFrame]
  · simp [postRender, restartOnNextFrame]

/-- Witness for C9: a render with no pending restart issues no command. -/
theorem C9_restart_deferred_one_shot_witness :
    postRender initialModState = (initialModState, []) :=
  (C9_restart_deferred_one_shot initialModState).2.2.1 rfl

/-- C10: `postGameStarted` never moves the traversal cursor; any floor-load
command it issues targets exactly the current cursor pair, which is the first
pair only when the cursor is at its initial/post-wrap position; and in the
mitigation-restart branch the in-progress floor map is untouched. -/
theorem C10_run_start_cursor_frame :
    ∀ (st : ModState) (inp : RunInputs) (st' : ModState) (cmds : List Cmd),
    postGameStarted st inp = Except.ok (st', cmds) →
    st'.recordingStage = st.recordingStage ∧
    st'.recordingStageType = st.recordingStageType ∧
    (∀ s t, Cmd.goToStage s t ∈ cmds →
      s = st.recordingStage ∧ t = st.recordingStageType) ∧
    (Cmd.goToStage STAGE1_1 STAGETYPE_ORIGINAL ∈ cmds →
      st.recordingStage = STAGE1_1 ∧
        st.recordingStageType = STAGETYPE_ORIGINAL) ∧
    (inp.hasPreventAllCurses = false → st'.floorsMap = st.floorsMap) := by
  intro st inp st' cmds h
  unfold postGameStarted validateRun at h
  cases hc : inp.continued <;> cases hs : inp.onSetSeed <;>
    by_cases hd : inp.difficulty = DIFFICULTY_NORMAL <;>
    by_cases hch : inp.challenge = CHALLENGE_NULL <;>
    by_cases hp : inp.character = PLAYER_ISAAC <;>
    cases hcur : inp.hasPreventAllCurses <;>
    simp_all [VERBOSE, restartOnNextFrame] <;>
    obtain ⟨rfl, rfl⟩ := h <;>
    simp_all

/-- Witness for C10: the eligible run start at the mid-seed cursor leaves the
cursor at (3, 2) and its floor-load command targets exactly that pair. -/
theorem C10_run_start_cursor_frame_witness :
    ({ stMidSeed with floorsMap := [] } : ModState).recordingStage =
        stMidSeed.recordingStage ∧
    ({ stMidSeed with floorsMap := [] } : ModState).recordingStageType =
        stMidSeed.recordingStageType ∧
    (3 = stMidSeed.recordingStage ∧ 2 = stMidSeed.recordingStageType) := by
  have h := C10_run_start_cursor_frame stMidSeed inpEligible
      { stMidSeed with floorsMap := [] }
      [Cmd.debugString ("MC_POST_GAME_STARTED - SEED"), Cmd.goToStage 3 2] rfl
  exact ⟨h.1, h.2.1, h.2.2.1 3 2 (by decide)⟩

end FloorRecorder
